import Mathlib

/-!
Shallow embedding of the futex-based lock primitives of the steed runtime
(`src/sys/linux/mutex.rs` and `src/sys/linux/rwlock.rs`).

Each Rust operation becomes a Lean function on an explicit lock-state record.
A call returns three components: an `Outcome` (normal return value, fatal
abort via a runtime panic, or `spin` when the modelled loop fuel runs out),
the final lock state, and the chronological list of futex syscalls issued.
Thread identity (`thread::current()`, a pthread handle compared only for
equality) is modelled as an opaque `Nat`; the null owner pointer is `none`.
The embedding is sequential: each atomic read observes the current state, a
compare-and-swap succeeds exactly when the stored value equals the expected
one, and the kernel side of a futex wait is outside the model (the syscall is
recorded as an event and control returns to the loop, matching an immediate
or spurious wakeup).
-/

namespace Steed

/-- `usize::MAX` on the 64-bit Linux targets the crate supports. -/
def USIZE_MAX : Nat := 2 ^ 64 - 1

/-- `isize::MAX`, the wake count used by `RWLock::write_unlock` to wake all
waiters. -/
def ISIZE_MAX : Nat := 2 ^ 63 - 1

/-- The futex word an event is keyed on: the address of the `locked` cell of a
`Mutex` or `ReentrantMutex`, or of the `users` cell of a `RWLock`. -/
inductive FutexAddr where
  | mutexLocked
  | reentrantLocked
  | rwlockUsers
  deriving DecidableEq

/-- A futex syscall issued by a lock operation: `FUTEX_WAIT_PRIVATE` with the
expected value passed as third syscall argument, or `FUTEX_WAKE_PRIVATE` with
the maximum number of threads to wake. -/
inductive Event where
  | futexWait (addr : FutexAddr) (expected : Nat)
  | futexWake (addr : FutexAddr) (count : Nat)
  deriving DecidableEq

/-- Result of an operation: a normal return, a fatal runtime panic (steed
aborts the process), or exhaustion of the loop fuel while still retrying. -/
inductive Outcome (ρ : Type) where
  | ok (ret : ρ)
  | fatal (msg : String)
  | spin
  deriving DecidableEq

/-- `true` when the operation did not run out of fuel: it returned normally or
aborted, i.e. it terminated. -/
def completed : Outcome ρ → Bool
  | Outcome.spin => false
  | _ => true

/-- `true` for a `FUTEX_WAIT_PRIVATE` event. -/
def isWait : Event → Bool
  | Event.futexWait _ _ => true
  | Event.futexWake _ _ => false

/-- State of `Mutex`: the `locked` atomic boolean and the `waiters` counter of
threads blocked in the kernel. -/
structure MutexState where
  locked : Bool
  waiters : Nat
  deriving DecidableEq

namespace Mutex

/-- `Mutex::new`. -/
def new : MutexState := ⟨false, 0⟩

/-- `Mutex::try_lock`: one `compare_and_swap(false, true, Acquire)` on
`locked`; returns the negation of the previous value. -/
def try_lock (s : MutexState) : Bool × MutexState × List Event :=
  let locked_prev := s.locked
  if locked_prev = false then (true, { s with locked := true }, [])
  else (false, s, [])

/-- `Mutex::lock`: loop of `compare_and_swap(false, true, Acquire)`; on
failure increment `waiters`, issue `FUTEX_WAIT_PRIVATE` on the `locked` cell
with expected value the literal `0` of the source, decrement `waiters`, and
retry. `fuel` bounds the number of loop iterations modelled. -/
def lock (fuel : Nat) (s : MutexState) : Outcome Unit × MutexState × List Event :=
  match fuel with
  | 0 => (Outcome.spin, s, [])
  | fuel + 1 =>
    let locked_prev := s.locked
    if locked_prev = false then (Outcome.ok (), { s with locked := true }, [])
    else
      let s1 := { s with waiters := s.waiters + 1 }
      let s2 := { s1 with waiters := s1.waiters - 1 }
      let (r, s3, evs) := lock fuel s2
      (r, s3, Event.futexWait FutexAddr.mutexLocked 0 :: evs)

/-- `Mutex::unlock`: `compare_and_swap(true, false, Release)` on `locked`; on
success wake one waiter when `waiters` is nonzero; when the mutex was not
locked, panic (fatal). -/
def unlock (s : MutexState) : Outcome Unit × MutexState × List Event :=
  let locked_prev := s.locked
  if locked_prev = true then
    let s1 := { s with locked := false }
    if s1.waiters ≠ 0 then
      (Outcome.ok (), s1, [Event.futexWake FutexAddr.mutexLocked 1])
    else (Outcome.ok (), s1, [])
  else (Outcome.fatal "mutex is not locked", s, [])

end Mutex

/-- State of `ReentrantMutex`: `locked`, `waiters`, the atomic `owner` pointer
(`none` models the null pointer) and the non-atomic `reentrance_count`. -/
structure ReentrantMutexState where
  locked : Bool
  waiters : Nat
  owner : Option Nat
  reentrance_count : Nat
  deriving DecidableEq

namespace ReentrantMutex

/-- `ReentrantMutex::new`. -/
def new : ReentrantMutexState := ⟨false, 0, none, 0⟩

/-- `ReentrantMutex::try_lock` for calling thread `t`:
`compare_and_swap(false, true, Acquire)`; on success return `true` (the
source stores nothing else on this path); otherwise if `owner` equals the
current thread, increment `reentrance_count` and return `true`; else
return `false`. -/
def try_lock (t : Nat) (s : ReentrantMutexState) :
    Bool × ReentrantMutexState × List Event :=
  let locked_prev := s.locked
  if locked_prev = false then (true, { s with locked := true }, [])
  else if s.owner = some t then
    (true, { s with reentrance_count := s.reentrance_count + 1 }, [])
  else (false, s, [])

/-- `ReentrantMutex::lock` for calling thread `t`: loop; on CAS success store
`owner := t` and stop; else if `owner` is the current thread increment
`reentrance_count` and stop; else increment `waiters`, issue
`FUTEX_WAIT_PRIVATE` on `locked` with the literal expected value `0` of the
source, decrement `waiters`, and retry. -/
def lock (t : Nat) (fuel : Nat) (s : ReentrantMutexState) :
    Outcome Unit × ReentrantMutexState × List Event :=
  match fuel with
  | 0 => (Outcome.spin, s, [])
  | fuel + 1 =>
    let locked_prev := s.locked
    if locked_prev = false then
      (Outcome.ok (), { s with locked := true, owner := some t }, [])
    else if s.owner = some t then
      (Outcome.ok (), { s with reentrance_count := s.reentrance_count + 1 }, [])
    else
      let s1 := { s with waiters := s.waiters + 1 }
      let s2 := { s1 with waiters := s1.waiters - 1 }
      let (r, s3, evs) := lock t fuel s2
      (r, s3, Event.futexWait FutexAddr.reentrantLocked 0 :: evs)

/-- `ReentrantMutex::unlock` for calling thread `t`: panic when `owner` is not
the current thread; when `reentrance_count = 0`, clear `owner`, CAS `locked`
from true to false (panicking when it was not locked) and wake one waiter when
`waiters` is nonzero; otherwise just decrement `reentrance_count`. -/
def unlock (t : Nat) (s : ReentrantMutexState) :
    Outcome Unit × ReentrantMutexState × List Event :=
  if s.owner ≠ some t then
    (Outcome.fatal "unlocking mutex owned by other thread", s, [])
  else if s.reentrance_count = 0 then
    let s1 := { s with owner := none }
    let locked_prev := s1.locked
    if locked_prev = true then
      let s2 := { s1 with locked := false }
      if s2.waiters ≠ 0 then
        (Outcome.ok (), s2, [Event.futexWake FutexAddr.reentrantLocked 1])
      else (Outcome.ok (), s2, [])
    else (Outcome.fatal "mutex is not locked", s1, [])
  else
    (Outcome.ok (), { s with reentrance_count := s.reentrance_count - 1 }, [])

end ReentrantMutex

/-- `RWLOCK_WRITER`: the `users` value that signals the lock is held by a
writer (`usize::MAX`). -/
def RWLOCK_WRITER : Nat := USIZE_MAX

/-- State of `RWLock`: the `users` counter (0 = free, `RWLOCK_WRITER` = one
writer, otherwise the number of readers) and the `waiters` counter. -/
structure RWLockState where
  users : Nat
  waiters : Nat
  deriving DecidableEq

namespace RWLock

/-- `RWLock::new`. -/
def new : RWLockState := ⟨0, 0⟩

/-- The loop of `RWLock::read`, with `users` the value observed by the last
load or failed CAS. Observing `RWLOCK_WRITER` blocks (futex wait keyed on the
observed value) and reloads; observing `RWLOCK_WRITER - 1` panics (reader
overflow); otherwise CAS `users` to `users + 1`, retrying with the returned
previous value on failure. -/
def readLoop (fuel : Nat) (users : Nat) (s : RWLockState) :
    Outcome Unit × RWLockState × List Event :=
  match fuel with
  | 0 => (Outcome.spin, s, [])
  | fuel + 1 =>
    if users = RWLOCK_WRITER then
      let s1 := { s with waiters := s.waiters + 1 }
      let s2 := { s1 with waiters := s1.waiters - 1 }
      let (r, s3, evs) := readLoop fuel s2.users s2
      (r, s3, Event.futexWait FutexAddr.rwlockUsers users :: evs)
    else if users = RWLOCK_WRITER - 1 then
      (Outcome.fatal "rwlock maximum reader count exceeded", s, [])
    else
      let users_prev := s.users
      if users = users_prev then
        (Outcome.ok (), { s with users := users + 1 }, [])
      else readLoop fuel users_prev s

/-- `RWLock::read`: load `users` with acquire ordering and enter the loop. -/
def read (fuel : Nat) (s : RWLockState) : Outcome Unit × RWLockState × List Event :=
  readLoop fuel s.users s

/-- The loop of `RWLock::try_read`: like `readLoop` but an observed
`RWLOCK_WRITER` returns `false` instead of blocking. -/
def tryReadLoop (fuel : Nat) (users : Nat) (s : RWLockState) :
    Outcome Bool × RWLockState × List Event :=
  match fuel with
  | 0 => (Outcome.spin, s, [])
  | fuel + 1 =>
    if users = RWLOCK_WRITER then (Outcome.ok false, s, [])
    else if users = RWLOCK_WRITER - 1 then
      (Outcome.fatal "rwlock maximum reader count exceeded", s, [])
    else
      let users_prev := s.users
      if users = users_prev then
        (Outcome.ok true, { s with users := users + 1 }, [])
      else tryReadLoop fuel users_prev s

/-- `RWLock::try_read`. -/
def try_read (fuel : Nat) (s : RWLockState) : Outcome Bool × RWLockState × List Event :=
  tryReadLoop fuel s.users s

/-- `RWLock::write`: loop CAS `users` from 0 to `RWLOCK_WRITER`; on failure
block keyed on the observed previous value and retry. -/
def write (fuel : Nat) (s : RWLockState) : Outcome Unit × RWLockState × List Event :=
  match fuel with
  | 0 => (Outcome.spin, s, [])
  | fuel + 1 =>
    let users_prev := s.users
    if users_prev = 0 then (Outcome.ok (), { s with users := RWLOCK_WRITER }, [])
    else
      let s1 := { s with waiters := s.waiters + 1 }
      let s2 := { s1 with waiters := s1.waiters - 1 }
      let (r, s3, evs) := write fuel s2
      (r, s3, Event.futexWait FutexAddr.rwlockUsers users_prev :: evs)

/-- `RWLock::try_write`: a single CAS of `users` from 0 to `RWLOCK_WRITER`. -/
def try_write (s : RWLockState) : Bool × RWLockState × List Event :=
  let users_prev := s.users
  if users_prev = 0 then (true, { s with users := RWLOCK_WRITER }, [])
  else (false, s, [])

/-- The loop of `RWLock::read_unlock`, with `users` the value observed by the
last load or failed CAS: panic on `RWLOCK_WRITER` or 0, else CAS `users` to
`users - 1`; on success wake one waiter exactly when the new value is 0 and
`waiters` is nonzero; on CAS failure retry with the returned previous
value. -/
def readUnlockLoop (fuel : Nat) (users : Nat) (s : RWLockState) :
    Outcome Unit × RWLockState × List Event :=
  match fuel with
  | 0 => (Outcome.spin, s, [])
  | fuel + 1 =>
    if users = RWLOCK_WRITER then
      (Outcome.fatal "rwlock is locked by a writer", s, [])
    else if users = 0 then
      (Outcome.fatal "rwlock is not locked by a reader", s, [])
    else
      let users_prev := s.users
      if users = users_prev then
        let s1 := { s with users := users - 1 }
        if users - 1 = 0 ∧ s1.waiters ≠ 0 then
          (Outcome.ok (), s1, [Event.futexWake FutexAddr.rwlockUsers 1])
        else (Outcome.ok (), s1, [])
      else readUnlockLoop fuel users_prev s

/-- `RWLock::read_unlock`: load `users` and enter the loop. -/
def read_unlock (fuel : Nat) (s : RWLockState) :
    Outcome Unit × RWLockState × List Event :=
  readUnlockLoop fuel s.users s

/-- `RWLock::write_unlock`: CAS `users` from `RWLOCK_WRITER` to 0; on success
wake all waiters (`FUTEX_WAKE_PRIVATE` with count `isize::MAX`) when `waiters`
is nonzero; panic when the lock was not writer-held. -/
def write_unlock (s : RWLockState) : Outcome Unit × RWLockState × List Event :=
  let users_prev := s.users
  if users_prev = RWLOCK_WRITER then
    let s1 := { s with users := 0 }
    if s1.waiters ≠ 0 then
      (Outcome.ok (), s1, [Event.futexWake FutexAddr.rwlockUsers ISIZE_MAX])
    else (Outcome.ok (), s1, [])
  else (Outcome.fatal "rwlock is not locked by a writer", s, [])

end RWLock

end Steed

/-- C1: at a held mutex (`locked = true`), the blocking branch of
`Mutex.lock` increments and decrements `waiters` around its futex wait, but
the wait is issued with expected value 0 — the unlocked value — not the
locked value read by the failed compare-and-swap; the blocking branch of
`ReentrantMutex.lock` issues the same wait with expected value 0. -/
theorem mutex_lock_futex_wait_expects_zero :
    (Steed.Mutex.lock 1 ⟨true, 0⟩).2.2 =
      [Steed.Event.futexWait Steed.FutexAddr.mutexLocked 0] ∧
    (Steed.ReentrantMutex.lock 1 1 ⟨true, 0, some 2, 0⟩).2.2 =
      [Steed.Event.futexWait Steed.FutexAddr.reentrantLocked 0] := by
  decide

/-- C2: `ReentrantMutex.try_lock` called by thread 1 on a fresh lock returns
`true` but leaves `owner` null (it records neither the owner nor the depth),
so the same thread's immediately following `unlock` takes the cross-thread
fatal path instead of releasing the lock. -/
theorem reentrant_try_lock_omits_owner :
    (Steed.ReentrantMutex.try_lock 1 Steed.ReentrantMutex.new).1 = true ∧
    (Steed.ReentrantMutex.try_lock 1 Steed.ReentrantMutex.new).2.1.owner = none ∧
    (Steed.ReentrantMutex.unlock 1
        (Steed.ReentrantMutex.try_lock 1 Steed.ReentrantMutex.new).2.1).1 =
      Steed.Outcome.fatal "unlocking mutex owned by other thread" := by
  decide

/-- C3: one `try_lock` step from the initial `ReentrantMutex` state reaches a
state with `locked = true` and `owner` null, so the claimed invariant that
`owner` is non-null whenever `locked` is true fails on a reachable state. -/
theorem reentrant_owner_locked_invariant_breaks :
    (Steed.ReentrantMutex.try_lock 1 Steed.ReentrantMutex.new).2.1.locked = true ∧
    (Steed.ReentrantMutex.try_lock 1 Steed.ReentrantMutex.new).2.1.owner = none := by
  decide

/-- C5: `Mutex.try_lock` is a single compare-and-swap: it returns `true` iff
the mutex was unlocked, issues no syscall, and on a held mutex returns
`false` with the state unchanged — in particular a holder that retries
observes `false`. -/
theorem mutex_try_lock_single_cas (s : Steed.MutexState) :
    ((Steed.Mutex.try_lock s).1 = true ↔ s.locked = false) ∧
    (Steed.Mutex.try_lock s).2.2 = [] ∧
    (s.locked = true → Steed.Mutex.try_lock s = (false, s, [])) := by
  cases hl : s.locked <;> simp [Steed.Mutex.try_lock, hl]

theorem mutex_try_lock_single_cas_witness :
    Steed.Mutex.try_lock ⟨true, 0⟩ = (false, ⟨true, 0⟩, []) :=
  (mutex_try_lock_single_cas ⟨true, 0⟩).2.2 rfl

/-- C9: `ReentrantMutex.unlock` by the recorded owner with a positive
reentrance count only decrements the count: the returned state is the input
state with `reentrance_count` reduced by one (so `locked`, `owner` and
`waiters` are untouched) and no syscall is issued. -/
theorem reentrant_unlock_inner_decrements_only (t : Nat)
    (s : Steed.ReentrantMutexState) (ho : s.owner = some t)
    (hc : 0 < s.reentrance_count) :
    Steed.ReentrantMutex.unlock t s =
      (Steed.Outcome.ok (),
        { s with reentrance_count := s.reentrance_count - 1 }, []) := by
  have hc' : s.reentrance_count ≠ 0 := Nat.pos_iff_ne_zero.mp hc
  simp [Steed.ReentrantMutex.unlock, ho, hc']

theorem reentrant_unlock_inner_decrements_only_witness :
    Steed.ReentrantMutex.unlock 1 ⟨true, 4, some 1, 2⟩ =
      (Steed.Outcome.ok (), ⟨true, 4, some 1, 1⟩, []) :=
  reentrant_unlock_inner_decrements_only 1 ⟨true, 4, some 1, 2⟩ rfl (by decide)

/-- C10: the `Mutex` waiter counter is only changed inside the blocking
branch of `lock`: `try_lock` and `unlock` leave `waiters` unchanged on every
input state, and a `lock` call that completes (returns `ok`) leaves `waiters`
equal to its entry value — every increment is matched by a decrement. -/
theorem mutex_waiters_frame :
    (∀ s : Steed.MutexState, (Steed.Mutex.try_lock s).2.1.waiters = s.waiters) ∧
    (∀ s : Steed.MutexState, (Steed.Mutex.unlock s).2.1.waiters = s.waiters) ∧
    (∀ fuel s, (Steed.Mutex.lock fuel s).1 = Steed.Outcome.ok () →
        (Steed.Mutex.lock fuel s).2.1.waiters = s.waiters) := by
  refine ⟨?_, ?_, ?_⟩
  · intro s; cases hl : s.locked <;> simp [Steed.Mutex.try_lock, hl]
  · intro s
    cases hl : s.locked <;> simp [Steed.Mutex.unlock, hl]
    split <;> rfl
  · intro fuel
    induction fuel with
    | zero => intro s h; simp [Steed.Mutex.lock] at h
    | succ n ih =>
      intro s h
      by_cases hl : s.locked = false
      · simp [Steed.Mutex.lock, hl]
      · rcases hrec : Steed.Mutex.lock n
            { s with waiters := s.waiters + 1 - 1 } with ⟨r', s3', evs'⟩
        simp only [Steed.Mutex.lock, if_neg hl] at h ⊢
        rw [hrec] at h ⊢
        have := ih { s with waiters := s.waiters + 1 - 1 } (by rw [hrec]; exact h)
        rw [hrec] at this
        simpa using this

theorem mutex_waiters_frame_witness :
    (Steed.Mutex.lock 1 ⟨false, 5⟩).2.1.waiters = 5 :=
  mutex_waiters_frame.2.2 1 ⟨false, 5⟩ (by decide)

theorem rwlock_writer_sub_one_ne : Steed.RWLOCK_WRITER - 1 ≠ Steed.RWLOCK_WRITER := by
  decide

theorem rwlock_writer_ne_zero : (0 : Nat) ≠ Steed.RWLOCK_WRITER := by
  decide

/-- C4: unlocking in the wrong mode is a fatal abort, never a returned error:
`Mutex.unlock` on an unlocked mutex, `ReentrantMutex.unlock` by a thread that
is not the recorded owner, `RWLock.read_unlock` when `users` is 0 or the
writer sentinel, and `RWLock.write_unlock` when `users` is not the sentinel
all end in `Outcome.fatal`. -/
theorem unlock_wrong_mode_is_fatal :
    (∀ s : Steed.MutexState, s.locked = false →
        (Steed.Mutex.unlock s).1 = Steed.Outcome.fatal "mutex is not locked") ∧
    (∀ (t : Nat) (s : Steed.ReentrantMutexState), s.owner ≠ some t →
        (Steed.ReentrantMutex.unlock t s).1 =
          Steed.Outcome.fatal "unlocking mutex owned by other thread") ∧
    (∀ (fuel : Nat) (s : Steed.RWLockState), s.users = 0 →
        (Steed.RWLock.read_unlock (fuel + 1) s).1 =
          Steed.Outcome.fatal "rwlock is not locked by a reader") ∧
    (∀ (fuel : Nat) (s : Steed.RWLockState), s.users = Steed.RWLOCK_WRITER →
        (Steed.RWLock.read_unlock (fuel + 1) s).1 =
          Steed.Outcome.fatal "rwlock is locked by a writer") ∧
    (∀ s : Steed.RWLockState, s.users ≠ Steed.RWLOCK_WRITER →
        (Steed.RWLock.write_unlock s).1 =
          Steed.Outcome.fatal "rwlock is not locked by a writer") := by
  refine ⟨?_, ?_, ?_, ?_, ?_⟩
  · intro s h; simp [Steed.Mutex.unlock, h]
  · intro t s h; simp [Steed.ReentrantMutex.unlock, h]
  · intro fuel s h
    have hz : (0 : Nat) ≠ Steed.RWLOCK_WRITER := by decide
    simp [Steed.RWLock.read_unlock, Steed.RWLock.readUnlockLoop, h, hz]
  · intro fuel s h
    simp [Steed.RWLock.read_unlock, Steed.RWLock.readUnlockLoop, h]
  · intro s h; simp [Steed.RWLock.write_unlock, h]

theorem unlock_wrong_mode_is_fatal_witness :
    (Steed.Mutex.unlock ⟨false, 0⟩).1 = Steed.Outcome.fatal "mutex is not locked" ∧
    (Steed.ReentrantMutex.unlock 1 ⟨true, 0, some 2, 0⟩).1 =
      Steed.Outcome.fatal "unlocking mutex owned by other thread" ∧
    (Steed.RWLock.read_unlock 1 ⟨0, 0⟩).1 =
      Steed.Outcome.fatal "rwlock is not locked by a reader" ∧
    (Steed.RWLock.read_unlock 1 ⟨Steed.RWLOCK_WRITER, 0⟩).1 =
      Steed.Outcome.fatal "rwlock is locked by a writer" ∧
    (Steed.RWLock.write_unlock ⟨3, 0⟩).1 =
      Steed.Outcome.fatal "rwlock is not locked by a writer" :=
  ⟨unlock_wrong_mode_is_fatal.1 ⟨false, 0⟩ rfl,
   unlock_wrong_mode_is_fatal.2.1 1 ⟨true, 0, some 2, 0⟩ (by decide),
   unlock_wrong_mode_is_fatal.2.2.1 0 ⟨0, 0⟩ rfl,
   unlock_wrong_mode_is_fatal.2.2.2.1 0 ⟨Steed.RWLOCK_WRITER, 0⟩ rfl,
   unlock_wrong_mode_is_fatal.2.2.2.2 ⟨3, 0⟩ (by decide)⟩

/-- C6: the loops of `RWLock.read` and `RWLock.try_read` abort fatally the
moment they observe `users = RWLOCK_WRITER - 1` (reader overflow, no
increment); for any other observed non-sentinel value `users` they CAS
`users` to `users + 1`: when the stored value still equals the observed one
the CAS succeeds and the operation returns, otherwise the loop retries with
the value the failed CAS returned. -/
theorem rwlock_read_overflow_and_cas :
    (∀ (fuel users : Nat) (s : Steed.RWLockState),
        users = Steed.RWLOCK_WRITER - 1 →
        Steed.RWLock.readLoop (fuel + 1) users s =
          (Steed.Outcome.fatal "rwlock maximum reader count exceeded", s, []) ∧
        Steed.RWLock.tryReadLoop (fuel + 1) users s =
          (Steed.Outcome.fatal "rwlock maximum reader count exceeded", s, [])) ∧
    (∀ (fuel : Nat) (s : Steed.RWLockState),
        s.users = Steed.RWLOCK_WRITER - 1 →
        (Steed.RWLock.read (fuel + 1) s).1 =
          Steed.Outcome.fatal "rwlock maximum reader count exceeded" ∧
        (Steed.RWLock.try_read (fuel + 1) s).1 =
          Steed.Outcome.fatal "rwlock maximum reader count exceeded") ∧
    (∀ (fuel users : Nat) (s : Steed.RWLockState),
        users ≠ Steed.RWLOCK_WRITER → users ≠ Steed.RWLOCK_WRITER - 1 →
        (s.users = users →
          Steed.RWLock.readLoop (fuel + 1) users s =
            (Steed.Outcome.ok (), { s with users := users + 1 }, []) ∧
          Steed.RWLock.tryReadLoop (fuel + 1) users s =
            (Steed.Outcome.ok true, { s with users := users + 1 }, [])) ∧
        (s.users ≠ users →
          Steed.RWLock.readLoop (fuel + 1) users s =
            Steed.RWLock.readLoop fuel s.users s ∧
          Steed.RWLock.tryReadLoop (fuel + 1) users s =
            Steed.RWLock.tryReadLoop fuel s.users s)) := by
  refine ⟨?_, ?_, ?_⟩
  · intro fuel users s h
    subst h
    constructor <;>
      simp [Steed.RWLock.readLoop, Steed.RWLock.tryReadLoop, rwlock_writer_sub_one_ne]
  · intro fuel s h
    constructor <;>
      simp [Steed.RWLock.read, Steed.RWLock.try_read, Steed.RWLock.readLoop,
        Steed.RWLock.tryReadLoop, h, rwlock_writer_sub_one_ne]
  · intro fuel users s h1 h2
    constructor
    · intro he
      constructor <;>
        simp [Steed.RWLock.readLoop, Steed.RWLock.tryReadLoop, h1, h2, he]
    · intro hne
      constructor <;>
        simp [Steed.RWLock.readLoop, Steed.RWLock.tryReadLoop, h1, h2, hne,
          Ne.symm hne]

theorem rwlock_read_overflow_and_cas_witness :
    Steed.RWLock.tryReadLoop 1 (Steed.RWLOCK_WRITER - 1)
        ⟨Steed.RWLOCK_WRITER - 1, 0⟩ =
      (Steed.Outcome.fatal "rwlock maximum reader count exceeded",
        ⟨Steed.RWLOCK_WRITER - 1, 0⟩, []) ∧
    (Steed.RWLock.try_read 1 ⟨Steed.RWLOCK_WRITER - 1, 0⟩).1 =
      Steed.Outcome.fatal "rwlock maximum reader count exceeded" ∧
    Steed.RWLock.tryReadLoop 1 5 ⟨5, 0⟩ = (Steed.Outcome.ok true, ⟨6, 0⟩, []) ∧
    Steed.RWLock.readLoop 1 5 ⟨6, 0⟩ = Steed.RWLock.readLoop 0 6 ⟨6, 0⟩ :=
  ⟨(rwlock_read_overflow_and_cas.1 0 (Steed.RWLOCK_WRITER - 1)
      ⟨Steed.RWLOCK_WRITER - 1, 0⟩ rfl).2,
   (rwlock_read_overflow_and_cas.2.1 0 ⟨Steed.RWLOCK_WRITER - 1, 0⟩ rfl).2,
   ((rwlock_read_overflow_and_cas.2.2 0 5 ⟨5, 0⟩ (by decide) (by decide)).1 rfl).2,
   ((rwlock_read_overflow_and_cas.2.2 0 5 ⟨6, 0⟩ (by decide) (by decide)).2
      (by decide)).1⟩

/-- C7: wake widths are asymmetric and gated on `waiters`: a read-unlock
decrements `users` and wakes one waiter exactly when the new count is 0 and
`waiters` is nonzero; a write-unlock resets `users` to 0 and wakes all
waiters (`FUTEX_WAKE_PRIVATE` with count `isize::MAX`) exactly when `waiters`
is nonzero; a mutex unlock wakes one waiter exactly when `waiters` is
nonzero; with `waiters = 0` each issues no wake at all. -/
theorem unlock_wake_widths :
    (∀ s : Steed.MutexState, s.locked = true →
        (Steed.Mutex.unlock s).2.2 =
          if s.waiters ≠ 0 then
            [Steed.Event.futexWake Steed.FutexAddr.mutexLocked 1]
          else []) ∧
    (∀ (fuel : Nat) (s : Steed.RWLockState),
        s.users ≠ 0 → s.users ≠ Steed.RWLOCK_WRITER →
        (Steed.RWLock.read_unlock (fuel + 1) s).2.1.users = s.users - 1 ∧
        (Steed.RWLock.read_unlock (fuel + 1) s).2.2 =
          if s.users - 1 = 0 ∧ s.waiters ≠ 0 then
            [Steed.Event.futexWake Steed.FutexAddr.rwlockUsers 1]
          else []) ∧
    (∀ s : Steed.RWLockState, s.users = Steed.RWLOCK_WRITER →
        (Steed.RWLock.write_unlock s).2.1.users = 0 ∧
        (Steed.RWLock.write_unlock s).2.2 =
          if s.waiters ≠ 0 then
            [Steed.Event.futexWake Steed.FutexAddr.rwlockUsers Steed.ISIZE_MAX]
          else []) := by
  refine ⟨?_, ?_, ?_⟩
  · intro s h
    by_cases hw : s.waiters = 0 <;> simp [Steed.Mutex.unlock, h, hw]
  · intro fuel s h0 hW
    refine ⟨?_, ?_⟩ <;>
      · simp [Steed.RWLock.read_unlock, Steed.RWLock.readUnlockLoop, h0, hW]
        split <;> simp
  · intro s h
    refine ⟨?_, ?_⟩ <;>
      · simp [Steed.RWLock.write_unlock, h]
        split <;> simp

theorem unlock_wake_widths_witness :
    (Steed.Mutex.unlock ⟨true, 2⟩).2.2 =
      [Steed.Event.futexWake Steed.FutexAddr.mutexLocked 1] ∧
    (Steed.RWLock.read_unlock 1 ⟨1, 3⟩).2.2 =
      [Steed.Event.futexWake Steed.FutexAddr.rwlockUsers 1] ∧
    (Steed.RWLock.write_unlock ⟨Steed.RWLOCK_WRITER, 1⟩).2.2 =
      [Steed.Event.futexWake Steed.FutexAddr.rwlockUsers Steed.ISIZE_MAX] :=
  ⟨(unlock_wake_widths.1 ⟨true, 2⟩ rfl).trans (by decide),
   ((unlock_wake_widths.2.1 0 ⟨1, 3⟩ (by decide) (by decide)).2).trans (by decide),
   ((unlock_wake_widths.2.2 ⟨Steed.RWLOCK_WRITER, 1⟩ rfl).2).trans (by decide)⟩

/-- C8: every `try_*` operation and every unlock of the three locks
terminates on every input state without any futex wait: the straight-line
operations issue no syscall at all on their try paths, and the loop-based
operations finish within a single iteration (fuel 1 never runs out), issuing
at most one wake event. -/
theorem try_and_unlock_ops_bounded :
    (∀ s : Steed.MutexState, (Steed.Mutex.try_lock s).2.2 = []) ∧
    (∀ s : Steed.MutexState,
        Steed.completed (Steed.Mutex.unlock s).1 = true ∧
        (Steed.Mutex.unlock s).2.2.all (fun e => !Steed.isWait e) = true ∧
        (Steed.Mutex.unlock s).2.2.length ≤ 1) ∧
    (∀ (t : Nat) (s : Steed.ReentrantMutexState),
        (Steed.ReentrantMutex.try_lock t s).2.2 = []) ∧
    (∀ (t : Nat) (s : Steed.ReentrantMutexState),
        Steed.completed (Steed.ReentrantMutex.unlock t s).1 = true ∧
        (Steed.ReentrantMutex.unlock t s).2.2.all (fun e => !Steed.isWait e) = true ∧
        (Steed.ReentrantMutex.unlock t s).2.2.length ≤ 1) ∧
    (∀ s : Steed.RWLockState,
        Steed.completed (Steed.RWLock.try_read 1 s).1 = true ∧
        (Steed.RWLock.try_read 1 s).2.2 = []) ∧
    (∀ s : Steed.RWLockState, (Steed.RWLock.try_write s).2.2 = []) ∧
    (∀ s : Steed.RWLockState,
        Steed.completed (Steed.RWLock.read_unlock 1 s).1 = true ∧
        (Steed.RWLock.read_unlock 1 s).2.2.all (fun e => !Steed.isWait e) = true ∧
        (Steed.RWLock.read_unlock 1 s).2.2.length ≤ 1) ∧
    (∀ s : Steed.RWLockState,
        Steed.completed (Steed.RWLock.write_unlock s).1 = true ∧
        (Steed.RWLock.write_unlock s).2.2.all (fun e => !Steed.isWait e) = true ∧
        (Steed.RWLock.write_unlock s).2.2.length ≤ 1) := by
  refine ⟨?_, ?_, ?_, ?_, ?_, ?_, ?_, ?_⟩
  · intro s; cases hl : s.locked <;> simp [Steed.Mutex.try_lock, hl]
  · intro s
    cases hl : s.locked <;> by_cases hw : s.waiters = 0 <;>
      simp [Steed.Mutex.unlock, hl, hw, Steed.completed, Steed.isWait]
  · intro t s
    cases hl : s.locked <;> by_cases ho : s.owner = some t <;>
      simp [Steed.ReentrantMutex.try_lock, hl, ho]
  · intro t s
    by_cases ho : s.owner = some t
    · by_cases hc : s.reentrance_count = 0
      · cases hl : s.locked <;> by_cases hw : s.waiters = 0 <;>
          simp [Steed.ReentrantMutex.unlock, ho, hc, hl, hw, Steed.completed,
            Steed.isWait]
      · simp [Steed.ReentrantMutex.unlock, ho, hc, Steed.completed]
    · simp [Steed.ReentrantMutex.unlock, ho, Steed.completed]
  · intro s
    by_cases h1 : s.users = Steed.RWLOCK_WRITER <;>
      by_cases h2 : s.users = Steed.RWLOCK_WRITER - 1 <;>
      simp [Steed.RWLock.try_read, Steed.RWLock.tryReadLoop, h1, h2,
        rwlock_writer_sub_one_ne, Steed.completed]
  · intro s; by_cases h : s.users = 0 <;> simp [Steed.RWLock.try_write, h]
  · intro s
    by_cases h1 : s.users = Steed.RWLOCK_WRITER
    · simp [Steed.RWLock.read_unlock, Steed.RWLock.readUnlockLoop, h1,
        Steed.completed]
    · by_cases h2 : s.users = 0
      · simp [Steed.RWLock.read_unlock, Steed.RWLock.readUnlockLoop, h1, h2,
          rwlock_writer_ne_zero, Steed.completed]
      · by_cases h3 : s.users - 1 = 0 ∧ s.waiters ≠ 0 <;>
          simp [Steed.RWLock.read_unlock, Steed.RWLock.readUnlockLoop, h1, h2,
            h3, Steed.completed, Steed.isWait]
  · intro s
    by_cases h : s.users = Steed.RWLOCK_WRITER <;> by_cases hw : s.waiters = 0 <;>
      simp [Steed.RWLock.write_unlock, h, hw, Steed.completed, Steed.isWait]
